import Mathlib

/-!
Shallow embedding of the result-normalization and aggregation pipeline of the
neotrak-action-gitlab security-scan orchestrator.

Sources embedded here:
  - src/index.js            (NTUSecurityOrchestrator: aggregateResults, runScans,
                             initializeScanners, shouldFail)
  - src/scanners/trivy.js   (TrivyScanner.scan / parseResults)
  - src/scanners/config.js  (ConfigScanner.scan / parseResults)
  - src/scanners/secret-detector.js (SecretDetectorScanner.scan / checkReport,
                             skipFiles deny-list, env-var placeholder regex)
  - src/test-local.js       (CdxgenScanner.scan, lines 192-288 variant: two-stage
                             SBOM pipeline with fallback to the trivy scanner)

JavaScript numbers that only ever hold counts are modelled as Nat; fields that
may be absent on a JS object are modelled as Option; the JS idiom `x || d`
(with absent/empty-string/zero falsy) is modelled explicitly where it occurs.
External effects (filesystem existence, the spawned tool, the report file the
tool leaves behind) are modelled as explicit parameters, and the tool
invocations an adapter performs are recorded in an explicit trace so that
control-flow claims (validate-before-invoke, fallback) are statable.
-/

/-- JS `x || 0` on a possibly-missing numeric field (src/index.js lines 174-178). -/
def orZero (x : Option Nat) : Nat := x.getD 0

/-- JS `s1 || s2` on strings, where the empty string is falsy. -/
def strOr (s d : String) : String := if s = "" then d else s

/-- JS `o || d` on a possibly-missing string field, where absent and empty are falsy. -/
def truthyOr (o : Option String) (d : String) : String :=
  match o with
  | none => d
  | some s => if s = "" then d else s

/-- JS String.prototype.toUpperCase restricted to ASCII, which covers every
severity string the tools emit. -/
def jsToUpperCase (s : String) : String :=
  String.mk (s.data.map Char.toUpper)

namespace Orchestrator

/-- One adapter result as consumed by the orchestrator: the per-severity counts
and total may be missing on the JS object (aggregateResults guards each field
with `|| 0`). -/
structure ScannerResult where
  total : Option Nat
  critical : Option Nat
  high : Option Nat
  medium : Option Nat
  low : Option Nat
  deriving DecidableEq, Repr

/-- The consolidated report `this.results` (src/index.js lines 10-17):
counters plus the ordered per-scanner breakdown. -/
structure Results where
  total : Nat
  critical : Nat
  high : Nat
  medium : Nat
  low : Nat
  scannerResults : List (String × ScannerResult)
  deriving DecidableEq, Repr

/-- The initial consolidated report (src/index.js lines 10-17). -/
def initialResults : Results :=
  { total := 0, critical := 0, high := 0, medium := 0, low := 0, scannerResults := [] }

/-- NTUSecurityOrchestrator.aggregateResults (src/index.js lines 173-179):
adds each counter of the incoming result, treating a missing field as zero.
It does not touch the scannerResults breakdown. -/
def aggregateResults (r : Results) (s : ScannerResult) : Results :=
  { r with
    total := r.total + orZero s.total
    critical := r.critical + orZero s.critical
    high := r.high + orZero s.high
    medium := r.medium + orZero s.medium
    low := r.low + orZero s.low }

/-- NTUSecurityOrchestrator.shouldFail (src/index.js lines 580-588):
if the configured exit-code input is the string "0" the run never fails,
otherwise it fails exactly when the consolidated total is positive. -/
def shouldFail (exitCode : String) (results : Results) : Bool :=
  if exitCode = "0" then false else decide (0 < results.total)

end Orchestrator

/-- Aggregating a list of scanner results folds each counter additively and
leaves the breakdown untouched (src/index.js lines 173-179). -/
theorem aggregate_foldl (sets : List Orchestrator.ScannerResult)
    (r0 : Orchestrator.Results) :
    sets.foldl Orchestrator.aggregateResults r0 =
      { total := r0.total + (sets.map (fun s => orZero s.total)).sum
        critical := r0.critical + (sets.map (fun s => orZero s.critical)).sum
        high := r0.high + (sets.map (fun s => orZero s.high)).sum
        medium := r0.medium + (sets.map (fun s => orZero s.medium)).sum
        low := r0.low + (sets.map (fun s => orZero s.low)).sum
        scannerResults := r0.scannerResults } := by
  induction sets generalizing r0 with
  | nil => simp
  | cons s ss ih =>
      simp only [List.foldl_cons, List.map_cons, List.sum_cons, ih,
        Orchestrator.aggregateResults]
      simp only [Orchestrator.Results.mk.injEq]
      refine ⟨?_, ?_, ?_, ?_, ?_, trivial⟩ <;> omega

/-- C1: shouldFail returns false whenever the exit-code policy value is the
string "0", regardless of the report (including total = 100); for any other
policy value it returns true exactly when the consolidated total is
positive. -/
theorem C1_decision_policy :
    (∀ r : Orchestrator.Results, Orchestrator.shouldFail "0" r = false) ∧
    (∀ (ec : String) (r : Orchestrator.Results), ec ≠ "0" →
      (Orchestrator.shouldFail ec r = true ↔ 0 < r.total)) := by
  constructor
  · intro r
    simp [Orchestrator.shouldFail]
  · intro ec r hec
    simp [Orchestrator.shouldFail, hec]

/-- A consolidated report with one hundred findings, used as the concrete
instance from the spec scenario. -/
def reportWithTotal100 : Orchestrator.Results :=
  { total := 100, critical := 0, high := 0, medium := 0, low := 0,
    scannerResults := [] }

/-- C1 witness: policy "0" never fails even at total = 100, and with policy
"1" a report with total 100 fails. -/
theorem C1_decision_policy_witness :
    Orchestrator.shouldFail "0" reportWithTotal100 = false ∧
    (Orchestrator.shouldFail "1" reportWithTotal100 = true ↔
      0 < reportWithTotal100.total) :=
  ⟨C1_decision_policy.1 _, C1_decision_policy.2 "1" _ (by decide)⟩

/-- Adapter A of the spec scenario: 3 findings, 1 critical, 2 high. -/
def adapterAResult : Orchestrator.ScannerResult :=
  { total := some 3, critical := some 1, high := some 2,
    medium := some 0, low := some 0 }

/-- Adapter B of the spec scenario: a secret-type set with 2 findings and no
severity counts. -/
def adapterBResult : Orchestrator.ScannerResult :=
  { total := some 2, critical := some 0, high := some 0,
    medium := some 0, low := some 0 }

/-- C2: aggregation increments each consolidated counter by the matching field
of the incoming set (missing fields count as zero), so after folding any list
of per-adapter sets each counter is the pairwise sum; in particular the two
sets of the spec scenario consolidate to total 5, critical 1, high 2. -/
theorem C2_aggregation_sums :
    (∀ (r0 : Orchestrator.Results) (sets : List Orchestrator.ScannerResult),
      (sets.foldl Orchestrator.aggregateResults r0).total =
          r0.total + (sets.map (fun s => orZero s.total)).sum ∧
      (sets.foldl Orchestrator.aggregateResults r0).critical =
          r0.critical + (sets.map (fun s => orZero s.critical)).sum ∧
      (sets.foldl Orchestrator.aggregateResults r0).high =
          r0.high + (sets.map (fun s => orZero s.high)).sum ∧
      (sets.foldl Orchestrator.aggregateResults r0).medium =
          r0.medium + (sets.map (fun s => orZero s.medium)).sum ∧
      (sets.foldl Orchestrator.aggregateResults r0).low =
          r0.low + (sets.map (fun s => orZero s.low)).sum) ∧
    [adapterAResult, adapterBResult].foldl Orchestrator.aggregateResults
        Orchestrator.initialResults =
      { total := 5, critical := 1, high := 2, medium := 0, low := 0,
        scannerResults := [] } := by
  constructor
  · intro r0 sets
    rw [aggregate_foldl]
    exact ⟨rfl, rfl, rfl, rfl, rfl⟩
  · decide

/-- Per-severity bucket counters built up while parsing a report. -/
structure SevCounts where
  critical : Nat
  high : Nat
  medium : Nat
  low : Nat
  deriving DecidableEq, Repr

/-- The zero bucket counters. -/
def SevCounts.zero : SevCounts := ⟨0, 0, 0, 0⟩

/-- The severity switch shared by the trivy parser (src/scanners/trivy.js
lines 419-432, applied to the raw severity string) and the config parser
(src/scanners/config.js lines 148-161, applied after toUpperCase): only the
four exact uppercase strings hit a case; anything else falls through with no
bucket incremented. -/
def bumpSeverity (c : SevCounts) (sev : String) : SevCounts :=
  if sev = "CRITICAL" then { c with critical := c.critical + 1 }
  else if sev = "HIGH" then { c with high := c.high + 1 }
  else if sev = "MEDIUM" then { c with medium := c.medium + 1 }
  else if sev = "LOW" then { c with low := c.low + 1 }
  else c

namespace TrivyScanner

/-- One element of a Results[].Vulnerabilities array in the trivy JSON
report. An absent Severity behaves exactly like a string matching no switch
case, so it is modelled as a plain string. -/
structure Vuln where
  VulnerabilityID : String
  Severity : String
  PkgName : String
  InstalledVersion : String
  FixedVersion : String
  Title : String
  deriving DecidableEq, Repr

/-- One element of the Results array: its Vulnerabilities array may be
absent (src/scanners/trivy.js line 406 guards on it). -/
structure ResultEntry where
  Vulnerabilities : Option (List Vuln)
  deriving DecidableEq, Repr

/-- The parsed trivy JSON report: the top-level Results array may be absent
(src/scanners/trivy.js line 400 guards on it). -/
structure TrivyData where
  Results : Option (List ResultEntry)
  deriving DecidableEq, Repr

/-- The finding entry pushed for every vulnerability
(src/scanners/trivy.js lines 410-417). -/
structure OutVuln where
  id : String
  severity : String
  package : String
  version : String
  fixedVersion : String
  title : String
  deriving DecidableEq, Repr

/-- The normalized finding set returned by parseResults
(src/scanners/trivy.js lines 455-462). -/
structure TrivyOut where
  total : Nat
  critical : Nat
  high : Nat
  medium : Nat
  low : Nat
  vulnerabilities : List OutVuln
  deriving DecidableEq, Repr

/-- Field mapping for one vulnerability (src/scanners/trivy.js lines 410-417). -/
def mapVuln (v : Vuln) : OutVuln :=
  { id := v.VulnerabilityID, severity := v.Severity, package := v.PkgName,
    version := v.InstalledVersion, fixedVersion := v.FixedVersion,
    title := v.Title }

/-- The inner forEach over one Vulnerabilities array
(src/scanners/trivy.js lines 409-433): push the mapped finding and run the
severity switch. -/
def processVulns (st : SevCounts × List OutVuln) (vs : List Vuln) :
    SevCounts × List OutVuln :=
  vs.foldl (fun st v => (bumpSeverity st.1 v.Severity, st.2 ++ [mapVuln v])) st

/-- TrivyScanner.parseResults on already-parsed JSON data
(src/scanners/trivy.js lines 391-462): walk Results in order, count the four
buckets, keep every finding, and return total as the sum of the four bucket
counts (line 445). -/
def parseResultsData (d : TrivyData) : TrivyOut :=
  let entries := d.Results.getD []
  let st := entries.foldl
    (fun st e =>
      match e.Vulnerabilities with
      | none => st
      | some vs => processVulns st vs)
    (SevCounts.zero, [])
  { total := st.1.critical + st.1.high + st.1.medium + st.1.low,
    critical := st.1.critical, high := st.1.high, medium := st.1.medium,
    low := st.1.low, vulnerabilities := st.2 }

/-- The all-zero normalized set returned on empty or unparsable output
(src/scanners/trivy.js lines 379-387 and 467-474). -/
def emptyOut : TrivyOut :=
  { total := 0, critical := 0, high := 0, medium := 0, low := 0,
    vulnerabilities := [] }

end TrivyScanner

namespace ConfigScanner

/-- One element of a Results[].Misconfigurations array in the trivy config
JSON report; every consumed field may be absent. CauseStartLine stands for
CauseMetadata?.StartLine (src/scanners/config.js line 168). -/
structure Misconf where
  ID : Option String
  Title : Option String
  Severity : Option String
  CauseStartLine : Option Nat
  deriving DecidableEq, Repr

/-- One element of the Results array of a config report
(src/scanners/config.js lines 137-172). -/
structure ResultEntry where
  Target : Option String
  Misconfigurations : Option (List Misconf)
  deriving DecidableEq, Repr

/-- The misconfiguration entry pushed per finding
(src/scanners/config.js lines 164-169). -/
structure MisconfOut where
  File : String
  Issue : String
  Severity : String
  Line : String
  deriving DecidableEq, Repr

/-- The normalized finding set returned by ConfigScanner.parseResults
(src/scanners/config.js lines 184-193). -/
structure ConfigOut where
  total : Nat
  totalFiles : Nat
  files : List String
  critical : Nat
  high : Nat
  medium : Nat
  low : Nat
  misconfigurations : List MisconfOut
  deriving DecidableEq, Repr

/-- JS `misconfiguration.CauseMetadata?.StartLine || 'N/A'`: an absent or
zero start line (zero is falsy) renders as "N/A". -/
def lineOut (o : Option Nat) : String :=
  match o with
  | none => "N/A"
  | some n => if n = 0 then "N/A" else toString n

/-- The severity switch of the config parser
(src/scanners/config.js lines 146-161): the raw string is uppercased by
`Severity?.toUpperCase()` before the same four-case switch; an absent
severity hits no case. -/
def bumpMisconf (c : SevCounts) (sev : Option String) : SevCounts :=
  match sev with
  | none => c
  | some s => bumpSeverity c (jsToUpperCase s)

/-- The entry pushed for one misconfiguration
(src/scanners/config.js lines 164-169): `result.Target || 'Unknown'`,
`Title || ID || 'N/A'`, `severity || 'UNKNOWN'` with the uppercased severity. -/
def mapMisconf (target : Option String) (m : Misconf) : MisconfOut :=
  { File := truthyOr target "Unknown",
    Issue := truthyOr m.Title (truthyOr m.ID "N/A"),
    Severity := truthyOr (m.Severity.map jsToUpperCase) "UNKNOWN",
    Line := lineOut m.CauseStartLine }

/-- ConfigScanner.parseResults on already-parsed JSON data
(src/scanners/config.js lines 128-193): collect truthy Targets as files,
run the severity switch per misconfiguration, and return the record of
lines 184-193. The per-misconfiguration `total` counter incremented at line
162 is dead: the returned total field is fileCount (line 185). -/
def parseResultsData (results : Option (List ResultEntry)) : ConfigOut :=
  let entries := results.getD []
  let files := entries.filterMap
    (fun e =>
      match e.Target with
      | none => none
      | some t => if t = "" then none else some t)
  let st := entries.foldl
    (fun st e =>
      match e.Misconfigurations with
      | none => st
      | some ms =>
          ms.foldl
            (fun st m =>
              (bumpMisconf st.1 m.Severity, st.2 ++ [mapMisconf e.Target m]))
            st)
    (SevCounts.zero, ([] : List MisconfOut))
  { total := files.length, totalFiles := files.length, files := files,
    critical := st.1.critical, high := st.1.high, medium := st.1.medium,
    low := st.1.low, misconfigurations := st.2 }

/-- The all-zero normalized set returned when parsing fails
(src/scanners/config.js lines 196-207). -/
def emptyOut : ConfigOut :=
  { total := 0, totalFiles := 0, files := [], critical := 0, high := 0,
    medium := 0, low := 0, misconfigurations := [] }

end ConfigScanner

/-- All vulnerabilities of a trivy report in emission order, across Results
entries (specification-side view of the walk in parseResults). -/
def TrivyScanner.allVulns (d : TrivyScanner.TrivyData) : List TrivyScanner.Vuln :=
  ((d.Results.getD []).map (fun e => e.Vulnerabilities.getD [])).flatten

/-- The inner forEach appends exactly the mapped vulnerabilities, in order. -/
theorem processVulns_snd (vs : List TrivyScanner.Vuln)
    (st : SevCounts × List TrivyScanner.OutVuln) :
    (TrivyScanner.processVulns st vs).2 = st.2 ++ vs.map TrivyScanner.mapVuln := by
  induction vs generalizing st with
  | nil => simp [TrivyScanner.processVulns]
  | cons v vs ih =>
      simp [TrivyScanner.processVulns] at ih ⊢
      rw [ih]
      simp

/-- The outer walk over Results collects the mapped vulnerabilities of every
entry, in order. -/
theorem parseResults_vuln_list (entries : List TrivyScanner.ResultEntry)
    (st : SevCounts × List TrivyScanner.OutVuln) :
    (entries.foldl
      (fun st e =>
        match e.Vulnerabilities with
        | none => st
        | some vs => TrivyScanner.processVulns st vs)
      st).2 =
      st.2 ++ ((entries.map (fun e => e.Vulnerabilities.getD [])).flatten).map
        TrivyScanner.mapVuln := by
  induction entries generalizing st with
  | nil => simp
  | cons e es ih =>
      cases h : e.Vulnerabilities with
      | none => simp [h, ih]
      | some vs => simp [h, ih, processVulns_snd]

/-- A config report entry with one target file and two CRITICAL
misconfigurations: the parser reports total 1 (the file count) but
critical 2. -/
def twoCriticalEntry : ConfigScanner.ResultEntry :=
  { Target := some "main.tf",
    Misconfigurations := some
      [ { ID := some "AVD-001", Title := some "issue one",
          Severity := some "CRITICAL", CauseStartLine := some 1 },
        { ID := some "AVD-002", Title := some "issue two",
          Severity := some "CRITICAL", CauseStartLine := some 2 } ] }

/-- C3: the trivy vulnerability parser always returns total equal to the sum
of the four severity buckets, but the misconfiguration parser does not: it
returns the number of scanned config files as total (src/scanners/config.js
line 185 discards the per-finding counter of line 162), so a report with one
file and two CRITICAL findings yields total 1 with critical 2. -/
theorem C3_total_is_severity_sum :
    (∀ d : TrivyScanner.TrivyData,
      (TrivyScanner.parseResultsData d).total =
        (TrivyScanner.parseResultsData d).critical +
        (TrivyScanner.parseResultsData d).high +
        (TrivyScanner.parseResultsData d).medium +
        (TrivyScanner.parseResultsData d).low) ∧
    (ConfigScanner.parseResultsData (some [twoCriticalEntry])).total = 1 ∧
    (ConfigScanner.parseResultsData (some [twoCriticalEntry])).critical = 2 ∧
    (ConfigScanner.parseResultsData (some [twoCriticalEntry])).total ≠
      (ConfigScanner.parseResultsData (some [twoCriticalEntry])).critical +
      (ConfigScanner.parseResultsData (some [twoCriticalEntry])).high +
      (ConfigScanner.parseResultsData (some [twoCriticalEntry])).medium +
      (ConfigScanner.parseResultsData (some [twoCriticalEntry])).low := by
  refine ⟨fun d => rfl, ?_, ?_, ?_⟩ <;> decide

/-- C4 counterexample: the claim predicts the severity string "Critical"
increments no bucket in every adapter, but the config parser uppercases
before matching, so a misconfiguration with Severity "Critical" increments
the critical bucket; the trivy switch on the same string leaves the buckets
unchanged. -/
theorem C4_counterexample :
    (ConfigScanner.parseResultsData (some
      [ { Target := some "main.tf",
          Misconfigurations := some
            [ { ID := some "AVD-003", Title := some "mixed case",
                Severity := some "Critical", CauseStartLine := some 3 } ] } ])).critical
      = 1 ∧
    bumpSeverity SevCounts.zero "Critical" = SevCounts.zero := by
  constructor <;> decide

/-- C4 as amended: the trivy vulnerability parser maps severity by direct
equality on the exact uppercase strings — "CRITICAL" increments the critical
bucket, any string outside the four exact uppercase names (so "Critical",
lowercase, or unknown strings) increments no bucket — and every finding is
retained in the returned vulnerabilities list regardless of severity; the
config parser instead uppercases the severity string before running the same
switch. -/
theorem C4_severity_mapping :
    (∀ c : SevCounts, bumpSeverity c "CRITICAL" =
      { c with critical := c.critical + 1 }) ∧
    (∀ (c : SevCounts) (s : String),
      s ∉ (["CRITICAL", "HIGH", "MEDIUM", "LOW"] : List String) →
      bumpSeverity c s = c) ∧
    (∀ d : TrivyScanner.TrivyData,
      (TrivyScanner.parseResultsData d).vulnerabilities =
        (TrivyScanner.allVulns d).map TrivyScanner.mapVuln) ∧
    (∀ (c : SevCounts) (s : String),
      ConfigScanner.bumpMisconf c (some s) = bumpSeverity c (jsToUpperCase s)) := by
  refine ⟨?_, ?_, ?_, ?_⟩
  · intro c
    rfl
  · intro c s hs
    simp only [List.mem_cons, List.not_mem_nil, or_false, not_or] at hs
    simp [bumpSeverity, hs.1, hs.2.1, hs.2.2.1, hs.2.2.2]
  · intro d
    simp [TrivyScanner.parseResultsData, TrivyScanner.allVulns,
      parseResults_vuln_list]
  · intro c s
    rfl

/-- C4 witness: at the concrete severity string "Critical" the trivy switch
leaves the zero buckets unchanged, while the config switch increments the
critical bucket. -/
theorem C4_severity_mapping_witness :
    bumpSeverity SevCounts.zero "Critical" = SevCounts.zero ∧
    ConfigScanner.bumpMisconf SevCounts.zero (some "Critical") =
      bumpSeverity SevCounts.zero (jsToUpperCase "Critical") :=
  ⟨C4_severity_mapping.2.1 SevCounts.zero "Critical" (by decide),
   C4_severity_mapping.2.2.2 SevCounts.zero "Critical"⟩

namespace SecretDetectorScanner

/-- The manifest deny-list (src/scanners/secret-detector.js lines 11-19). -/
def skipFiles : List String :=
  ["package.json", "package-lock.json", "pom.xml", "build.gradle",
   "requirements.txt", "README.md", ".gitignore"]

/-- One entry of the gitleaks JSON report array
(consumed at src/scanners/secret-detector.js lines 275-292). -/
structure SecretFinding where
  RuleID : String
  Description : String
  File : String
  Match : String
  Secret : String
  StartLine : Nat
  EndLine : Nat
  StartColumn : Nat
  EndColumn : Nat
  deriving DecidableEq, Repr

/-- The finding shape placed in the returned set
(src/scanners/secret-detector.js lines 284-292): the numeric line and
column fields become strings and the file path gains a six-slash marker. -/
structure OutSecret where
  Description : String
  File : String
  Match : String
  StartLine : String
  EndLine : String
  StartColumn : String
  EndColumn : String
  deriving DecidableEq, Repr

/-- The normalized finding set the secret adapter returns
(src/scanners/secret-detector.js lines 326-335; the JS object also aliases
the same list under a vulnerabilities key and carries a wall-clock duration
string). -/
structure SecretOut where
  total : Nat
  critical : Nat
  high : Nat
  medium : Nat
  low : Nat
  secrets : List OutSecret
  deriving DecidableEq, Repr

/-- Whether the first list starts with the second. -/
def listStartsWith : List Char → List Char → Bool
  | _, [] => true
  | [], _ :: _ => false
  | c :: cs, p :: ps => (c == p) && listStartsWith cs ps

/-- JS String.prototype.includes: whether the pattern occurs anywhere. -/
def listContainsSeq : List Char → List Char → Bool
  | [], pat => listStartsWith [] pat
  | c :: t, pat => listStartsWith (c :: t) pat || listContainsSeq t pat

/-- The character class [A-Z0-9_] of the placeholder regex. -/
def isEnvNameChar (c : Char) : Bool :=
  (('A' ≤ c) && (c ≤ 'Z')) || (('0' ≤ c) && (c ≤ '9')) || (c == '_')

/-- The test of the regex /["']?\$\{?[A-Z0-9_]+\}?["']?/ on the matched text
(src/scanners/secret-detector.js line 279). The quotes, the closing brace
and the repetition beyond one character are all optional or irrelevant to
whether the regex matches somewhere, so the test succeeds exactly when the
text contains a dollar sign followed (directly or through one opening
brace) by a character in [A-Z0-9_]. -/
def hasEnvPlaceholder : List Char → Bool
  | [] => false
  | c :: rest =>
      ((c == '$') &&
        (match rest with
         | '{' :: d :: _ => isEnvNameChar d
         | d :: _ => isEnvNameChar d
         | [] => false)) ||
      hasEnvPlaceholder rest

/-- Node path.basename for posix paths: trailing slashes are ignored and the
last path segment is returned. -/
def basenameOf (s : String) : String :=
  String.mk
    (((s.data.reverse.dropWhile (fun c => c == '/')).takeWhile
      (fun c => !(c == '/'))).reverse)

/-- The survival filter applied to gitleaks findings
(src/scanners/secret-detector.js lines 276-280): drop deny-listed basenames,
drop paths containing node_modules, drop matches that look like CI
environment-variable placeholders. -/
def keepFinding (item : SecretFinding) : Bool :=
  !(skipFiles.contains (basenameOf item.File)) &&
  !(listContainsSeq item.File.data ("node_modules").data) &&
  !(hasEnvPlaceholder item.Match.data)

/-- The per-finding output mapping (src/scanners/secret-detector.js lines
284-292): File gains a six-slash marker and the numeric fields are passed
through JS String(). -/
def toOutSecret (item : SecretFinding) : OutSecret :=
  { Description := item.Description,
    File := "//////" ++ item.File,
    Match := item.Match,
    StartLine := toString item.StartLine,
    EndLine := toString item.EndLine,
    StartColumn := toString item.StartColumn,
    EndColumn := toString item.EndColumn }

/-- The all-zero secret set. -/
def emptyOut : SecretOut :=
  { total := 0, critical := 0, high := 0, medium := 0, low := 0, secrets := [] }

/-- The result assembly of SecretDetectorScanner.scan on a parsed report
(src/scanners/secret-detector.js lines 271-335): an empty report array is
turned into the string "No secrets detected." by checkReport (line 176), in
which case the filter and map are skipped and every count is zero; otherwise
the surviving findings are counted as total with all four severity buckets
zero. -/
def scanResultOf (items : List SecretFinding) : SecretOut :=
  if items.length = 0 then emptyOut
  else
    { total := (items.filter keepFinding).length,
      critical := 0, high := 0, medium := 0, low := 0,
      secrets := (items.filter keepFinding).map toOutSecret }

end SecretDetectorScanner

/-- A gitleaks finding whose matched text is a braced environment-variable
placeholder. -/
def envBraceFinding : SecretDetectorScanner.SecretFinding :=
  { RuleID := "strict-secret-detection", Description := "generic secret",
    File := "src/app.js", Match := "$\x7bAPI_KEY\x7d", Secret := "",
    StartLine := 12, EndLine := 12, StartColumn := 5, EndColumn := 20 }

/-- A gitleaks finding whose matched text is a bare environment-variable
placeholder. -/
def envBareFinding : SecretDetectorScanner.SecretFinding :=
  { RuleID := "strict-secret-detection", Description := "generic secret",
    File := "src/app.js", Match := "$API_KEY", Secret := "",
    StartLine := 13, EndLine := 13, StartColumn := 5, EndColumn := 14 }

/-- A gitleaks finding with a real-looking secret value. -/
def realSecretFinding : SecretDetectorScanner.SecretFinding :=
  { RuleID := "strict-secret-detection", Description := "generic secret",
    File := "src/config/payment.js", Match := "sk_live_abcdef1234567890",
    Secret := "sk_live_abcdef1234567890",
    StartLine := 7, EndLine := 7, StartColumn := 10, EndColumn := 34 }

/-- A gitleaks finding located in a deny-listed manifest file. -/
def manifestFinding : SecretDetectorScanner.SecretFinding :=
  { RuleID := "strict-secret-detection", Description := "generic secret",
    File := "project/package.json", Match := "sk_live_abcdef1234567890",
    Secret := "", StartLine := 3, EndLine := 3, StartColumn := 1,
    EndColumn := 25 }

/-- A gitleaks finding located under a node_modules directory. -/
def vendoredFinding : SecretDetectorScanner.SecretFinding :=
  { RuleID := "strict-secret-detection", Description := "generic secret",
    File := "node_modules/somepkg/index.js", Match := "sk_live_abcdef1234567890",
    Secret := "", StartLine := 4, EndLine := 4, StartColumn := 1,
    EndColumn := 25 }

/-- C5: a secret scan keeps exactly the findings passing the three exclusion
filters — basename not deny-listed, path free of node_modules, matched text
free of an environment-variable placeholder — and returns their count as
total with all four severity buckets zero; the placeholder matches
the braced and bare API_KEY examples but not the sk_live value, the
deny-listed manifest and the vendored path are excluded. -/
theorem C5_secret_filter :
    (∀ items : List SecretDetectorScanner.SecretFinding,
      (SecretDetectorScanner.scanResultOf items).total =
        (items.filter SecretDetectorScanner.keepFinding).length ∧
      (SecretDetectorScanner.scanResultOf items).critical = 0 ∧
      (SecretDetectorScanner.scanResultOf items).high = 0 ∧
      (SecretDetectorScanner.scanResultOf items).medium = 0 ∧
      (SecretDetectorScanner.scanResultOf items).low = 0 ∧
      (SecretDetectorScanner.scanResultOf items).secrets =
        (items.filter SecretDetectorScanner.keepFinding).map
          SecretDetectorScanner.toOutSecret) ∧
    (∀ item : SecretDetectorScanner.SecretFinding,
      SecretDetectorScanner.keepFinding item = true ↔
        (SecretDetectorScanner.skipFiles.contains
            (SecretDetectorScanner.basenameOf item.File) = false ∧
         SecretDetectorScanner.listContainsSeq item.File.data
            ("node_modules").data = false ∧
         SecretDetectorScanner.hasEnvPlaceholder item.Match.data = false)) ∧
    SecretDetectorScanner.keepFinding envBraceFinding = false ∧
    SecretDetectorScanner.keepFinding envBareFinding = false ∧
    SecretDetectorScanner.keepFinding realSecretFinding = true ∧
    SecretDetectorScanner.keepFinding manifestFinding = false ∧
    SecretDetectorScanner.keepFinding vendoredFinding = false := by
  refine ⟨?_, ?_, by decide, by decide, by decide, by decide, by decide⟩
  · intro items
    simp only [SecretDetectorScanner.scanResultOf]
    split
    next h =>
      have he : items = [] := List.length_eq_zero.mp h
      subst he
      simp [SecretDetectorScanner.emptyOut]
    next h =>
      exact ⟨rfl, rfl, rfl, rfl, rfl, rfl⟩
  · intro item
    simp [SecretDetectorScanner.keepFinding, and_assoc]

/-- C10: the secret set returned to the orchestrator consists exactly of the
surviving findings, each with the tool-reported file path prefixed by six
slash characters and the numeric line and column fields rendered as
strings. -/
theorem C10_secret_output_fields :
    (∀ items : List SecretDetectorScanner.SecretFinding,
      (SecretDetectorScanner.scanResultOf items).secrets =
        (items.filter SecretDetectorScanner.keepFinding).map
          SecretDetectorScanner.toOutSecret) ∧
    (∀ item : SecretDetectorScanner.SecretFinding,
      (SecretDetectorScanner.toOutSecret item).File = "//////" ++ item.File ∧
      (SecretDetectorScanner.toOutSecret item).File.data =
        '/' :: '/' :: '/' :: '/' :: '/' :: '/' :: item.File.data ∧
      (SecretDetectorScanner.toOutSecret item).StartLine =
        toString item.StartLine ∧
      (SecretDetectorScanner.toOutSecret item).EndLine =
        toString item.EndLine ∧
      (SecretDetectorScanner.toOutSecret item).StartColumn =
        toString item.StartColumn ∧
      (SecretDetectorScanner.toOutSecret item).EndColumn =
        toString item.EndColumn) := by
  constructor
  · intro items
    simp only [SecretDetectorScanner.scanResultOf]
    split
    next h =>
      have he : items = [] := List.length_eq_zero.mp h
      subst he
      simp [SecretDetectorScanner.emptyOut]
    next h => rfl
  · intro item
    refine ⟨rfl, ?_, rfl, rfl, rfl, rfl⟩
    show ("//////" ++ item.File).data = _
    rw [String.data_append]
    rfl

/-- The error classes a single adapter scan can raise. -/
inductive ScanErr
  | targetMissing (target : String)
  | noOutput
  | invalidJson
  | readFailed
  | installFailed
  deriving DecidableEq, Repr

/-- The external tool invocations an adapter can perform; a scan records the
invocations it makes, in order, so that validate-before-invoke behaviour is
statable. -/
inductive ToolCall
  | trivyScan (target : String)
  | trivyConfigScan (target : String)
  | gitleaksDetect (dir : String)
  deriving DecidableEq, Repr

/-- The state of the report file an external tool leaves behind: missing,
present but empty (or whitespace), present but unparsable, or parsed JSON
data. -/
inductive ReportFile (α : Type)
  | absent
  | blank
  | malformed
  | json (data : α)
  deriving DecidableEq, Repr

/-- TrivyScanner.scan (src/scanners/trivy.js lines 253-353) as a function of
the world it touches: whether the target path exists (line 263) and the
state of the JSON output file after the tool ran. A missing target fails
before any invocation; a missing output file fails with the no-output error
(line 319); empty or unparsable JSON is absorbed into the all-zero set by
parseResults (lines 377-387 and 464-475). -/
def TrivyScanner.scanModel (targetExists : Bool) (target : String)
    (output : ReportFile TrivyScanner.TrivyData) :
    List ToolCall × Except ScanErr TrivyScanner.TrivyOut :=
  if targetExists then
    ([ToolCall.trivyScan target],
      match output with
      | .absent => Except.error ScanErr.noOutput
      | .blank => Except.ok TrivyScanner.emptyOut
      | .malformed => Except.ok TrivyScanner.emptyOut
      | .json d => Except.ok (TrivyScanner.parseResultsData d))
  else ([], Except.error (ScanErr.targetMissing target))

/-- ConfigScanner.scan (src/scanners/config.js lines 43-111) as a function
of the same world pieces: target validation at line 47, the no-output error
at line 97, and the parse-failure recovery to the all-zero set at lines
195-207 (an empty file is a JSON.parse failure there too, since
parseResults reads and parses without an emptiness check). -/
def ConfigScanner.scanModel (targetExists : Bool) (target : String)
    (output : ReportFile (Option (List ConfigScanner.ResultEntry))) :
    List ToolCall × Except ScanErr ConfigScanner.ConfigOut :=
  if targetExists then
    ([ToolCall.trivyConfigScan target],
      match output with
      | .absent => Except.error ScanErr.noOutput
      | .blank => Except.ok ConfigScanner.emptyOut
      | .malformed => Except.ok ConfigScanner.emptyOut
      | .json d => Except.ok (ConfigScanner.parseResultsData d))
  else ([], Except.error (ScanErr.targetMissing target))

/-- SecretDetectorScanner.scan (src/scanners/secret-detector.js lines
254-340) as a function of the same world pieces. The targetExists argument
models the same filesystem fact the other two adapters consult, but this
scan never reads it: no existence check is performed and gitleaks is always
invoked on `config.scanTarget || config.workspaceDir || '.'` (line 257).
checkReport (lines 169-182) rejects with the file-read error when the
report is absent and with an invalid-JSON error when its content is empty
or unparsable, and the scan rethrows (line 339). -/
def SecretDetectorScanner.scanModel (targetExists : Bool)
    (scanTarget workspaceDir : String)
    (output : ReportFile (List SecretDetectorScanner.SecretFinding)) :
    List ToolCall × Except ScanErr SecretDetectorScanner.SecretOut :=
  let scanDir := strOr scanTarget (strOr workspaceDir ".")
  ([ToolCall.gitleaksDetect scanDir],
    match output with
    | .absent => Except.error ScanErr.readFailed
    | .blank => Except.error ScanErr.invalidJson
    | .malformed => Except.error ScanErr.invalidJson
    | .json items => Except.ok (SecretDetectorScanner.scanResultOf items))

/-- C6 counterexample: with a nonexistent target the secret adapter neither
fails with a target-not-found error nor skips the tool — gitleaks is invoked
on the missing path and the scan proceeds to a normal result. -/
theorem C6_counterexample :
    SecretDetectorScanner.scanModel false "/missing/path" "/workspace"
        (ReportFile.json []) =
      ([ToolCall.gitleaksDetect "/missing/path"],
        Except.ok SecretDetectorScanner.emptyOut) ∧
    (SecretDetectorScanner.scanModel false "/missing/path" "/workspace"
        (ReportFile.json [])).1 ≠ [] := by
  exact ⟨rfl, by decide⟩

/-- C6 as amended: the trivy and config adapters validate the target path
and fail with a target-not-found error before any tool invocation when it
does not exist; the secret adapter performs no existence check and always
invokes gitleaks on the directory chosen by
`config.scanTarget || config.workspaceDir || '.'`. -/
theorem C6_target_validation :
    (∀ (target : String) (out : ReportFile TrivyScanner.TrivyData),
      TrivyScanner.scanModel false target out =
        ([], Except.error (ScanErr.targetMissing target))) ∧
    (∀ (target : String)
        (out : ReportFile (Option (List ConfigScanner.ResultEntry))),
      ConfigScanner.scanModel false target out =
        ([], Except.error (ScanErr.targetMissing target))) ∧
    (∀ (targetExists : Bool) (tgt wd : String)
        (out : ReportFile (List SecretDetectorScanner.SecretFinding)),
      (SecretDetectorScanner.scanModel targetExists tgt wd out).1 =
        [ToolCall.gitleaksDetect (strOr tgt (strOr wd "."))]) :=
  ⟨fun _ _ => rfl, fun _ _ => rfl, fun _ _ _ _ => rfl⟩

/-- C7 counterexample: on a report file that exists but is empty, the secret
adapter propagates an invalid-JSON error instead of returning the all-zero
normalized set the claim predicts. -/
theorem C7_counterexample :
    (SecretDetectorScanner.scanModel true "repo" "ws" ReportFile.blank).2 =
      Except.error ScanErr.invalidJson ∧
    (SecretDetectorScanner.scanModel true "repo" "ws" ReportFile.blank).2 ≠
      Except.ok SecretDetectorScanner.emptyOut :=
  ⟨rfl, fun h => Except.noConfusion h⟩

/-- C7 as amended: after invocation the trivy and config adapters fail with
a no-output error when the report file is absent and absorb empty or
malformed report content into the all-zero normalized set; the secret
adapter instead rejects — with the file-read error when the report is
absent, and with an invalid-JSON error when its content is empty or
malformed — and its scan rethrows that error. -/
theorem C7_output_handling :
    (∀ target : String,
      TrivyScanner.scanModel true target ReportFile.absent =
        ([ToolCall.trivyScan target], Except.error ScanErr.noOutput) ∧
      TrivyScanner.scanModel true target ReportFile.blank =
        ([ToolCall.trivyScan target], Except.ok TrivyScanner.emptyOut) ∧
      TrivyScanner.scanModel true target ReportFile.malformed =
        ([ToolCall.trivyScan target], Except.ok TrivyScanner.emptyOut)) ∧
    (∀ target : String,
      ConfigScanner.scanModel true target ReportFile.absent =
        ([ToolCall.trivyConfigScan target], Except.error ScanErr.noOutput) ∧
      ConfigScanner.scanModel true target ReportFile.blank =
        ([ToolCall.trivyConfigScan target], Except.ok ConfigScanner.emptyOut) ∧
      ConfigScanner.scanModel true target ReportFile.malformed =
        ([ToolCall.trivyConfigScan target], Except.ok ConfigScanner.emptyOut)) ∧
    (∀ tgt wd : String,
      (SecretDetectorScanner.scanModel true tgt wd ReportFile.absent).2 =
        Except.error ScanErr.readFailed ∧
      (SecretDetectorScanner.scanModel true tgt wd ReportFile.blank).2 =
        Except.error ScanErr.invalidJson ∧
      (SecretDetectorScanner.scanModel true tgt wd ReportFile.malformed).2 =
        Except.error ScanErr.invalidJson) :=
  ⟨fun _ => ⟨rfl, rfl, rfl⟩, fun _ => ⟨rfl, rfl, rfl⟩, fun _ _ => ⟨rfl, rfl, rfl⟩⟩

namespace Orchestrator

/-- A registered adapter as the orchestrator sees it: a name plus the
outcomes of its install and scan calls. A failed install can still be
followed by a successful scan, because TrivyScanner.scan falls back to the
bare binary name on PATH when install never set this.binaryPath
(src/scanners/trivy.js line 296). -/
structure Adapter where
  name : String
  installOutcome : Except ScanErr Unit
  scanOutcome : Except ScanErr ScannerResult

/-- NTUSecurityOrchestrator.initializeScanners (src/index.js lines 96-110):
install every registered scanner, catching and logging install failures; the
registered scanner list itself is never modified, so a scanner whose install
failed still runs in runScans. -/
def initializeScannersModel (scanners : List Adapter) : List Adapter :=
  scanners

/-- The scan loop of NTUSecurityOrchestrator.runScans (src/index.js lines
145-165): per scanner, a thrown scan is caught and logged, leaving the
consolidated results untouched; a returned result is aggregated and appended
to the per-scanner breakdown, and the loop continues in registration
order. -/
def runScansModel (init : Results) (scanners : List Adapter) : Results :=
  scanners.foldl
    (fun st a =>
      match a.scanOutcome with
      | Except.error _ => st
      | Except.ok r =>
          { aggregateResults st r with
            scannerResults := st.scannerResults ++ [(a.name, r)] })
    init

end Orchestrator

/-- An adapter whose install throws but whose scan succeeds with five
findings (realizable because the trivy scan falls back to the binary name
on PATH when install failed). -/
def installFailedAdapter : Orchestrator.Adapter :=
  { name := "Trivy Vulnerability Scanner",
    installOutcome := Except.error ScanErr.installFailed,
    scanOutcome := Except.ok
      { total := some 5, critical := some 2, high := some 3,
        medium := some 0, low := some 0 } }

/-- C8 counterexample: an adapter whose install operation throws is not left
at zero contribution — its scan still runs and its five findings land in the
consolidated report and breakdown, so the report is not unchanged by that
adapter. -/
theorem C8_counterexample :
    installFailedAdapter.installOutcome = Except.error ScanErr.installFailed ∧
    Orchestrator.runScansModel Orchestrator.initialResults
        (Orchestrator.initializeScannersModel [installFailedAdapter]) =
      { total := 5, critical := 2, high := 3, medium := 0, low := 0,
        scannerResults := [("Trivy Vulnerability Scanner",
          { total := some 5, critical := some 2, high := some 3,
            medium := some 0, low := some 0 })] } ∧
    Orchestrator.runScansModel Orchestrator.initialResults
        (Orchestrator.initializeScannersModel [installFailedAdapter]) ≠
      Orchestrator.initialResults := by
  refine ⟨rfl, rfl, by decide⟩

/-- C8 as amended: an adapter whose scan throws is caught, contributes
nothing to the counters or the breakdown, and the remaining adapters run in
registration order; an adapter whose install throws is caught and logged but
is not dropped from the scanner list — its scan is still attempted, and only
a scan failure guarantees zero contribution. -/
theorem C8_failure_isolation :
    (∀ scanners : List Orchestrator.Adapter,
      Orchestrator.initializeScannersModel scanners = scanners) ∧
    (∀ (init : Orchestrator.Results) (xs ys : List Orchestrator.Adapter)
        (nm : String) (installOut : Except ScanErr Unit) (e : ScanErr),
      Orchestrator.runScansModel init
          (xs ++ { name := nm, installOutcome := installOut,
                   scanOutcome := Except.error e } :: ys) =
        Orchestrator.runScansModel init (xs ++ ys)) := by
  constructor
  · intro scanners
    rfl
  · intro init xs ys nm installOut e
    simp [Orchestrator.runScansModel, List.foldl_append]

/-- The scan configuration object handed to every adapter
(src/index.js lines 133-141, restricted to the fields the SBOM adapter and
its fallback consume). -/
structure ScanConfig where
  scanType : String
  scanTarget : String
  severity : String
  deriving DecidableEq, Repr

/-- Observable events of the SBOM adapter scan: the logged fallback and the
delegated invocation of the plain trivy scan on a configuration. -/
inductive CdxEvent
  | fallbackLogged
  | trivyScanInvoked (cfg : ScanConfig)
  deriving DecidableEq, Repr

/-- CdxgenScanner.scan (src/test-local.js lines 192-288): stage 1 generates
the SBOM, stage 2 scans it; any failure inside the try block — in particular
a stage-1 failure — is caught at lines 280-287, the fallback is logged and
the plain trivy scan is invoked on the original configuration, its outcome
returned as the result. Stage outcomes are the abstract results of the
external tools. -/
def cdxgenScanModel {α : Type} (cfg : ScanConfig)
    (stage1 : Except String String)
    (stage2 : String → Except String α)
    (trivyScanOn : ScanConfig → Except String α) :
    List CdxEvent × Except String α :=
  match stage1 with
  | Except.error _ =>
      ([CdxEvent.fallbackLogged, CdxEvent.trivyScanInvoked cfg],
        trivyScanOn cfg)
  | Except.ok sbomPath =>
      match stage2 sbomPath with
      | Except.ok r => ([], Except.ok r)
      | Except.error _ =>
          ([CdxEvent.fallbackLogged, CdxEvent.trivyScanInvoked cfg],
            trivyScanOn cfg)

/-- C9: whenever SBOM generation fails, the SBOM adapter logs the fallback,
invokes the plain trivy scan on the original configuration, and returns that
fallback outcome as its own result; when both stages succeed no fallback
happens. -/
theorem C9_sbom_fallback {α : Type} (cfg : ScanConfig) (msg : String)
    (stage2 : String → Except String α)
    (trivyScanOn : ScanConfig → Except String α) :
    cdxgenScanModel cfg (Except.error msg) stage2 trivyScanOn =
      ([CdxEvent.fallbackLogged, CdxEvent.trivyScanInvoked cfg],
        trivyScanOn cfg) ∧
    (∀ (p : String) (r : α),
      cdxgenScanModel cfg (Except.ok p) (fun _ => Except.ok r) trivyScanOn =
        ([], Except.ok r)) :=
  ⟨rfl, fun _ _ => rfl⟩
